import Mathlib

/-!
Verification of `src/Python/mnist_nets.py`.

The repository consists of the single function `mnist_convnet`, which assembles
a convolutional-network topology by chaining calls to the tflearn layer
constructors (`input_data`, `conv_2d`, `max_pool_2d`,
`local_response_normalization`, `fully_connected`, `dropout`, `regression`).

The shallow embedding models the composed topology object as the ordered list
of layer specifications accumulated along the chain: each tflearn constructor
is modelled as a function that takes the incoming network (the layers built so
far) and appends its own specification, exactly mirroring the
`network = constructor(network, ...)` rebinding pattern of the source.  The
floating-point hyperparameters (`learning_rate`, `drop_prob`) are carried as
exact rationals, since the function only passes them through unchanged and
performs no arithmetic on them.
-/

/-- Activation-function names used in the source (`'relu'`, `'tanh'`, `'softmax'`). -/
inductive Activation
  | relu
  | tanh
  | softmax
  deriving DecidableEq, Repr

/-- Regularizer names used in the source (`'L2'`). -/
inductive Regularizer
  | L2
  deriving DecidableEq, Repr

/-- Optimizer names used in the source (`'adam'`). -/
inductive Optimizer
  | adam
  deriving DecidableEq, Repr

/-- Loss-function names used in the source (`'categorical_crossentropy'`). -/
inductive Loss
  | categorical_crossentropy
  deriving DecidableEq, Repr

/-- One layer specification, carrying the hyperparameters the corresponding
tflearn constructor is called with in `mnist_nets.py`.  The
`local_response_normalization` call in the source passes no arguments besides
the incoming network, so that constructor carries no fields (in particular no
`name` argument is given to it). -/
inductive Layer
  | input_data (shape : List (Option Nat)) (name : String)
  | conv_2d (nb_filter : Nat) (filter_size : Nat) (activation : Activation)
      (regularizer : Regularizer) (name : String)
  | max_pool_2d (kernel_size : Nat) (name : String)
  | local_response_normalization
  | fully_connected (n_units : Nat) (activation : Activation) (name : String)
  | dropout (keep_prob : ℚ) (name : String)
  | regression (optimizer : Optimizer) (learning_rate : ℚ) (loss : Loss) (name : String)
  deriving DecidableEq, Repr

/-- The kind of a layer, forgetting its hyperparameters; used to state claims
about the order of layers in the topology. -/
inductive LayerKind
  | input_data
  | conv_2d
  | max_pool_2d
  | local_response_normalization
  | fully_connected
  | dropout
  | regression
  deriving DecidableEq, Repr

/-- Forget a layer's hyperparameters, keeping only its kind. -/
def Layer.kind : Layer → LayerKind
  | .input_data _ _ => .input_data
  | .conv_2d _ _ _ _ _ => .conv_2d
  | .max_pool_2d _ _ => .max_pool_2d
  | .local_response_normalization => .local_response_normalization
  | .fully_connected _ _ _ => .fully_connected
  | .dropout _ _ => .dropout
  | .regression _ _ _ _ => .regression

/-- The `name` argument a layer's constructor was called with, or `none` for
`local_response_normalization`, whose call site passes no `name` argument. -/
def Layer.nameArg : Layer → Option String
  | .input_data _ n => some n
  | .conv_2d _ _ _ _ n => some n
  | .max_pool_2d _ n => some n
  | .local_response_normalization => none
  | .fully_connected _ _ n => some n
  | .dropout _ n => some n
  | .regression _ _ _ n => some n

/-- tflearn's `input_data(shape=..., name=...)`: starts a fresh network. -/
def input_data (shape : List (Option Nat)) (name : String) : List Layer :=
  [Layer.input_data shape name]

/-- tflearn's `conv_2d(incoming, nb_filter, filter_size, activation=...,
regularizer=..., name=...)`: appends a convolution layer. -/
def conv_2d (incoming : List Layer) (nb_filter : Nat) (filter_size : Nat)
    (activation : Activation) (regularizer : Regularizer) (name : String) : List Layer :=
  incoming ++ [Layer.conv_2d nb_filter filter_size activation regularizer name]

/-- tflearn's `max_pool_2d(incoming, kernel_size, name=...)`: appends a
max-pooling layer. -/
def max_pool_2d (incoming : List Layer) (kernel_size : Nat) (name : String) : List Layer :=
  incoming ++ [Layer.max_pool_2d kernel_size name]

/-- tflearn's `local_response_normalization(incoming)`: appends a local
response normalization layer (no further arguments are passed at the call
sites in the source). -/
def local_response_normalization (incoming : List Layer) : List Layer :=
  incoming ++ [Layer.local_response_normalization]

/-- tflearn's `fully_connected(incoming, n_units, activation=..., name=...)`:
appends a fully-connected layer. -/
def fully_connected (incoming : List Layer) (n_units : Nat) (activation : Activation)
    (name : String) : List Layer :=
  incoming ++ [Layer.fully_connected n_units activation name]

/-- tflearn's `dropout(incoming, keep_prob, name=...)`: appends a dropout
layer. -/
def dropout (incoming : List Layer) (keep_prob : ℚ) (name : String) : List Layer :=
  incoming ++ [Layer.dropout keep_prob name]

/-- tflearn's `regression(incoming, optimizer=..., learning_rate=..., loss=...,
name=...)`: appends the training/regression wrapper. -/
def regression (incoming : List Layer) (optimizer : Optimizer) (learning_rate : ℚ)
    (loss : Loss) (name : String) : List Layer :=
  incoming ++ [Layer.regression optimizer learning_rate loss name]

/-- `mnist_convnet(train_images, train_labels, learning_rate=0.001,
drop_prob=0.8)` from `src/Python/mnist_nets.py`, line by line.  The
`train_images` and `train_labels` parameters are accepted with arbitrary types
(the source never inspects them, so any value, including Python's `None`, is
admissible). -/
def mnist_convnet {α β : Type} (train_images : α) (train_labels : β)
    (learning_rate : ℚ := 0.001) (drop_prob : ℚ := 0.8) : List Layer :=
  let network := input_data [none, some 28, some 28, some 1] "input"
  let network := conv_2d network 32 3 .relu .L2 "conv2D"
  let network := max_pool_2d network 2 "max_pool_2d"
  let network := local_response_normalization network
  let network := conv_2d network 64 3 .relu .L2 "conv2D"
  let network := max_pool_2d network 2 "max_pool_2d"
  let network := local_response_normalization network
  let network := fully_connected network 128 .tanh "tabh"
  let network := dropout network drop_prob "dropout"
  let network := fully_connected network 256 .tanh "tabh"
  let network := dropout network drop_prob "dropout"
  let network := fully_connected network 10 .softmax "softmax"
  let network := regression network .adam learning_rate .categorical_crossentropy "target"
  network

/-- The keep-probabilities of the dropout layers of a topology, in order. -/
def dropoutProbs (net : List Layer) : List ℚ :=
  net.filterMap fun l =>
    match l with
    | .dropout p _ => some p
    | _ => none

/-- The learning rates of the regression layers of a topology, in order. -/
def regressionRates (net : List Layer) : List ℚ :=
  net.filterMap fun l =>
    match l with
    | .regression _ r _ _ => some r
    | _ => none

/-- The `name` arguments given to the layer constructors of a topology, in
order (layers whose call site passes no `name` argument contribute nothing). -/
def layerNames (net : List Layer) : List String :=
  net.filterMap Layer.nameArg

/-- C1: For default arguments, the topology returned by `mnist_convnet`
contains exactly 13 layers, in this order: input placeholder, convolution,
max-pool, local response normalization, convolution, max-pool, local response
normalization, fully-connected, dropout, fully-connected, dropout,
fully-connected (the softmax output), regression/training wrapper. -/
theorem mnist_convnet_thirteen_layers_in_order :
    (mnist_convnet (none : Option Unit) (none : Option Unit)).map Layer.kind =
      [.input_data, .conv_2d, .max_pool_2d, .local_response_normalization,
       .conv_2d, .max_pool_2d, .local_response_normalization,
       .fully_connected, .dropout, .fully_connected, .dropout,
       .fully_connected, .regression] ∧
    (mnist_convnet (none : Option Unit) (none : Option Unit)).length = 13 :=
  ⟨rfl, rfl⟩

/-- C2: For every value of `drop_prob`, both dropout layers of the returned
topology use that same keep-probability, so the two dropout layers'
keep-probabilities are always equal to each other and to the argument. -/
theorem dropout_layers_use_drop_prob {α β : Type} (ti : α) (tl : β) (lr dp : ℚ) :
    dropoutProbs (mnist_convnet ti tl lr dp) = [dp, dp] :=
  rfl

/-- C3: For every value of `learning_rate`, the regression layer of the
returned topology carries exactly that learning rate, with no transformation
applied. -/
theorem regression_learning_rate_pass_through {α β : Type} (ti : α) (tl : β) (lr dp : ℚ) :
    regressionRates (mnist_convnet ti tl lr dp) = [lr] :=
  rfl

/-- C4: For every combination of arguments, the output layer of the returned
topology (the layer at position 12 of 13, just before the regression wrapper)
is a fully-connected layer with exactly 10 units and softmax activation. -/
theorem output_layer_ten_units_softmax {α β : Type} (ti : α) (tl : β) (lr dp : ℚ) :
    (mnist_convnet ti tl lr dp)[11]? =
      some (Layer.fully_connected 10 .softmax "softmax") ∧
    (mnist_convnet ti tl lr dp).length = 13 :=
  ⟨rfl, rfl⟩

/-- C5: `mnist_convnet(None, None)` produces a topology identical to
`mnist_convnet(None, None, learning_rate=0.001, drop_prob=0.8)`: the defaults
of `learning_rate` and `drop_prob` are 0.001 and 0.8 respectively. -/
theorem mnist_convnet_default_argument_equivalence :
    mnist_convnet (none : Option Unit) (none : Option Unit) =
      mnist_convnet (none : Option Unit) (none : Option Unit) 0.001 0.8 :=
  rfl

/-- C6: The `train_images` and `train_labels` parameters do not influence the
result: for any two values of each (even of different types), with
`learning_rate` and `drop_prob` held fixed, `mnist_convnet` returns the same
topology. -/
theorem train_data_noninterference {α α' β β' : Type}
    (ti : α) (ti' : α') (tl : β) (tl' : β') (lr dp : ℚ) :
    mnist_convnet ti tl lr dp = mnist_convnet ti' tl' lr dp :=
  rfl

/-- C7: Every layer of the returned topology carries the hyperparameters of
§4.1: input placeholder of shape (batch, 28, 28, 1); convolutions with 32 then
64 filters, kernel size 3, ReLU activation and L2 regularization; max-pools of
window 2; hidden fully-connected layers of 128 then 256 units with tanh
activation; and a regression wrapper using the Adam optimizer with categorical
cross-entropy loss. -/
theorem mnist_convnet_layer_hyperparameters {α β : Type} (ti : α) (tl : β) (lr dp : ℚ) :
    mnist_convnet ti tl lr dp =
      [.input_data [none, some 28, some 28, some 1] "input",
       .conv_2d 32 3 .relu .L2 "conv2D",
       .max_pool_2d 2 "max_pool_2d",
       .local_response_normalization,
       .conv_2d 64 3 .relu .L2 "conv2D",
       .max_pool_2d 2 "max_pool_2d",
       .local_response_normalization,
       .fully_connected 128 .tanh "tabh",
       .dropout dp "dropout",
       .fully_connected 256 .tanh "tabh",
       .dropout dp "dropout",
       .fully_connected 10 .softmax "softmax",
       .regression .adam lr .categorical_crossentropy "target"] :=
  rfl

/-- C8: `mnist_convnet` performs no validation and signals no error for any
argument values: for every learning rate and keep-probability, including
out-of-range values, it returns the complete 13-layer topology with both
arguments passed through unchanged (the embedding is a total, check-free
function, mirroring the straight-line body with no checks, no raise and no
try/except). -/
theorem mnist_convnet_no_validation {α β : Type} (ti : α) (tl : β) (lr dp : ℚ) :
    (mnist_convnet ti tl lr dp).length = 13 ∧
    dropoutProbs (mnist_convnet ti tl lr dp) = [dp, dp] ∧
    regressionRates (mnist_convnet ti tl lr dp) = [lr] :=
  ⟨rfl, rfl, rfl⟩

/-- C9: The `name` arguments given to the layer constructors do not uniquely
identify layers: both convolutions are named "conv2D", both max-pools
"max_pool_2d", both hidden fully-connected layers share the misspelled name
"tabh", and both dropout layers are named "dropout"; only the input
("input"), output ("softmax") and regression ("target") layers have unique
names. -/
theorem layer_name_arguments_not_unique {α β : Type} (ti : α) (tl : β) (lr dp : ℚ) :
    layerNames (mnist_convnet ti tl lr dp) =
      ["input", "conv2D", "max_pool_2d", "conv2D", "max_pool_2d",
       "tabh", "dropout", "tabh", "dropout", "softmax", "target"] ∧
    (layerNames (mnist_convnet ti tl lr dp)).count "conv2D" = 2 ∧
    (layerNames (mnist_convnet ti tl lr dp)).count "max_pool_2d" = 2 ∧
    (layerNames (mnist_convnet ti tl lr dp)).count "tabh" = 2 ∧
    (layerNames (mnist_convnet ti tl lr dp)).count "dropout" = 2 ∧
    (layerNames (mnist_convnet ti tl lr dp)).count "input" = 1 ∧
    (layerNames (mnist_convnet ti tl lr dp)).count "softmax" = 1 ∧
    (layerNames (mnist_convnet ti tl lr dp)).count "target" = 1 :=
  ⟨rfl, rfl, rfl, rfl, rfl, rfl, rfl, rfl⟩

/-- C10: For all argument values, `mnist_convnet` terminates and returns a
value: its body is a straight-line sequence of thirteen constructor calls with
no loops, no recursion and no branching, so it is a total function whose
result always has 13 layers. -/
theorem mnist_convnet_terminates_returns {α β : Type} (ti : α) (tl : β) (lr dp : ℚ) :
    (mnist_convnet ti tl lr dp).length = 13 :=
  rfl
